import Mathlib

/-!
Shallow embedding of the hallucination-check program (aogiac.py) and proofs
of its specification claims.

Strings are modelled as Lean String / List Char.  Python floats are modelled
as exact rationals (Rat): the similarity ratio 2*M/T and the literal
thresholds 0.6, 0.5 become the rationals 2*M/T, 3/5, 1/2.  File modification
times are modelled as rationals with 0 as the "never loaded" sentinel,
matching the source's 0.0.
-/

/-- Whitespace characters recognised by Python str.strip and str.split:
space, tab, newline, carriage return, vertical tab, form feed (the
non-ASCII Unicode spaces do not occur in any input of this development). -/
def isPySpace (c : Char) : Bool :=
  c == ' ' || c == '\t' || c == '\n' || c == '\r' || c.toNat == 11 || c.toNat == 12

/-- Python str.strip(): drop leading and trailing whitespace. -/
def pyStrip (s : List Char) : List Char :=
  ((s.dropWhile isPySpace).reverse.dropWhile isPySpace).reverse

/-- Python str.split() with no argument: split on runs of whitespace,
discarding empty pieces.  The accumulator holds the current word reversed. -/
def pySplitGo : List Char → List Char → List (List Char)
  | [], cur => if cur.isEmpty then [] else [cur.reverse]
  | c :: rest, cur =>
    if isPySpace c then
      if cur.isEmpty then pySplitGo rest [] else cur.reverse :: pySplitGo rest []
    else pySplitGo rest (c :: cur)

/-- Python str.split() with no argument. -/
def pySplit (s : List Char) : List (List Char) := pySplitGo s []

/-- Word characters in the sense of the regex \w: ASCII alphanumerics,
underscore, and non-ASCII codepoints (Python's Unicode \w; every non-ASCII
character occurring in this development's inputs is a Vietnamese letter,
which Python classes as a word character). -/
def isWordChar (c : Char) : Bool :=
  c.isAlphanum || c == '_' || decide (128 ≤ c.toNat)

/-- The normalize helper inside do_ao_giac:
re.sub of the pattern \W+ with the empty string applied to text.lower(),
i.e. lower-case then keep only word characters.  Char.toLower lowers the
ASCII range; the non-ASCII characters in this development's inputs are
already lower-case. -/
def normalizeStr (text : List Char) : List Char :=
  (text.map Char.toLower).filter isWordChar

/-- Python substring membership, needle in hay. -/
def inStr (needle : List Char) : List Char → Bool
  | [] => needle.isEmpty
  | c :: rest => List.isPrefixOf needle (c :: rest) || inStr needle rest

/-- Ascending list of the positions of character c in b: difflib's b2j map
restricted to one key. -/
def posList (b : List Char) (c : Char) : List Nat :=
  (b.enum.filter (fun p => p.2 == c)).map (fun p => p.1)

/-- Lookup in the j2len association list with default 0
(difflib's j2len.get(j-1, 0)). -/
def j2get (m : List (Nat × Nat)) (j : Nat) : Nat :=
  match m.find? (fun p => p.1 == j) with
  | some p => p.2
  | none => 0

/-- One iteration of the inner loop of difflib's find_longest_match:
the accumulator is (newj2len, besti, bestj, bestsize); k is the length of
the matching run ending at (i, j) (for j = 0 the Python j2len.get(-1, 0)
is 0, hence the case split). -/
def flmInner (j2len : List (Nat × Nat)) (i : Nat)
    (acc : List (Nat × Nat) × Nat × Nat × Nat) (j : Nat) :
    List (Nat × Nat) × Nat × Nat × Nat :=
  let k := (if j == 0 then 0 else j2get j2len (j - 1)) + 1
  let newj2len := (j, k) :: acc.1
  if k > acc.2.2.2 then (newj2len, i + 1 - k, j + 1 - k, k)
  else (newj2len, acc.2.1, acc.2.2.1, acc.2.2.2)

/-- One iteration of the outer loop of find_longest_match: process row i,
visiting the positions of a[i] in b that lie in [blo, bhi) in ascending
order (the Python continue and break on a sorted list amount to this
filter); the old j2len is read, a fresh newj2len is built. -/
def flmOuter (a b : List Char) (blo bhi : Nat)
    (acc : List (Nat × Nat) × Nat × Nat × Nat) (i : Nat) :
    List (Nat × Nat) × Nat × Nat × Nat :=
  let js := (posList b (a.getD i ' ')).filter
    (fun j => decide (blo ≤ j) && decide (j < bhi))
  js.foldl (flmInner acc.1 i) ([], acc.2.1, acc.2.2.1, acc.2.2.2)

/-- difflib SequenceMatcher.find_longest_match(alo, ahi, blo, bhi) for
inputs without junk (isjunk is None and both strings are far below the
autojunk threshold of 200 elements, so the junk/popular extension loops of
the Python source are no-ops).  Returns (besti, bestj, bestsize). -/
def findLongestMatch (a b : List Char) (alo ahi blo bhi : Nat) :
    Nat × Nat × Nat :=
  let r := ((List.range (ahi - alo)).map (· + alo)).foldl
    (flmOuter a b blo bhi) ([], alo, blo, 0)
  (r.2.1, r.2.2.1, r.2.2.2)

/-- Total size of the matching blocks of difflib's get_matching_blocks on
the range [alo, ahi) x [blo, bhi): find the longest match, recurse on both
sides.  fuel bounds the recursion depth; every call strictly shrinks the
a-range, so an initial fuel of a.length + 1 never runs out. -/
def matchingTotalF (a b : List Char) :
    Nat → Nat → Nat → Nat → Nat → Nat
  | 0, _, _, _, _ => 0
  | fuel + 1, alo, ahi, blo, bhi =>
    let r := findLongestMatch a b alo ahi blo bhi
    if r.2.2 == 0 then 0
    else
      matchingTotalF a b fuel alo r.1 blo r.2.1 + r.2.2 +
        matchingTotalF a b fuel (r.1 + r.2.2) ahi (r.2.1 + r.2.2) bhi

/-- Sum of the sizes of difflib's matching blocks for the whole strings. -/
def matchingTotal (a b : List Char) : Nat :=
  matchingTotalF a b (a.length + 1) 0 a.length 0 b.length

/-- difflib SequenceMatcher(None, a, b).ratio(): 2*M/T where M is the total
matched size and T the sum of the lengths; 1 when both strings are empty
(difflib's _calculate_ratio). -/
def ratioOf (a b : List Char) : Rat :=
  if a.length + b.length == 0 then 1
  else mkRat (2 * (matchingTotal a b : Int)) (a.length + b.length)

/-- The scorer do_ao_giac(cau_tra_loi_llm, cau_tra_loi_tham_chieu):
strip both strings; with at most 2 whitespace tokens in the answer, return
1 on normalized containment, else the case-insensitive ratio when it
exceeds 3/5 and 0 otherwise; with more than 2 tokens return the
case-insensitive ratio directly. -/
def do_ao_giac (cau_tra_loi_llm cau_tra_loi_tham_chieu : String) : Rat :=
  let ans := pyStrip cau_tra_loi_llm.data
  let ref := pyStrip cau_tra_loi_tham_chieu.data
  if (pySplit ans).length ≤ 2 then
    if inStr (normalizeStr ans) (normalizeStr ref) then 1
    else
      let r := ratioOf (ans.map Char.toLower) (ref.map Char.toLower)
      if r > mkRat 3 5 then r else 0
  else ratioOf (ans.map Char.toLower) (ref.map Char.toLower)

/-!
Override Store (the module-level _faq_cache together with
_load_faq_from_disk and _load_faq_if_updated; the Python leading
underscore is dropped from the Lean names).

The backing file is modelled as Option FsFile: none when faq.json does not
exist; parsed is the result of json.load restricted by the isinstance
check, i.e. some mapping when the content is valid JSON whose top-level
value is an object, and none when the content is malformed or of another
shape (json.load raising is caught by the bare except of
_load_faq_from_disk, which then returns the empty dict).  A JSON object
has unique keys, so the mapping is an association list with distinct keys
and lookup is Python dict access.
-/

/-- State of the faq.json file on disk as the program observes it. -/
structure FsFile where
  mtime : Rat
  parsed : Option (List (String × String))
  deriving DecidableEq

/-- The module-level _faq_cache dict with keys mtime and data. -/
structure FaqCache where
  mtime : Rat
  data : List (String × String)
  deriving DecidableEq

/-- _load_faq_from_disk: the parsed dict when the file exists and holds a
JSON object, the empty dict otherwise (missing file, malformed JSON, or a
top-level value of another shape; exceptions are swallowed). -/
def load_faq_from_disk (fs : Option FsFile) : List (String × String) :=
  match fs with
  | some f => f.parsed.getD []
  | none => []

/-- Result of _load_faq_if_updated: the returned dict, the cache state it
leaves behind, and whether the branch that re-reads and re-parses the file
was taken (instrumentation for the no-re-parse part of the claims). -/
structure LoadResult where
  data : List (String × String)
  cache : FaqCache
  reloaded : Bool
  deriving DecidableEq

/-- _load_faq_if_updated: if the file exists and its mtime differs from the
cached one, re-read from disk and store the new data and mtime; if the
file does not exist, reset the cache to the empty dict and mtime 0.0;
finally return the cached data. -/
def load_faq_if_updated (fs : Option FsFile) (c : FaqCache) : LoadResult :=
  match fs with
  | some f =>
    if f.mtime ≠ c.mtime then
      let d := load_faq_from_disk (some f)
      ⟨d, ⟨f.mtime, d⟩, true⟩
    else ⟨c.data, c, false⟩
  | none => ⟨[], ⟨0, []⟩, false⟩

/-!
Change Watcher (FAQFileHandler and start_faq_watcher).
-/

/-- What start_faq_watcher returns: none models the Python None when
watchdog is unavailable; observerState records whether schedule and start
were called on the returned Observer before the function returned. -/
structure ObserverState where
  scheduled : Bool
  started : Bool
  deriving DecidableEq

/-- start_faq_watcher: when watchdog is unavailable it prints and returns
None.  When watchdog is available the source constructs an Observer and
returns it at once; the statements after that first return statement
(constructing the handler, schedule, start) are unreachable, so the
returned observer has had neither schedule nor start called on it. -/
def start_faq_watcher (watchdogAvailable : Bool) : Option ObserverState :=
  if !watchdogAvailable then none
  else some ⟨false, false⟩

/-- FAQFileHandler.on_modified: when the resolved event path equals the
watched path, replace the cache data by a fresh read from disk and the
cache mtime by the current stat mtime (0.0 when the file does not exist),
with no comparison against the cached mtime; otherwise leave the cache
unchanged.  Exceptions are swallowed, leaving the cache unchanged. -/
def on_modified (fs : Option FsFile) (c : FaqCache) (pathMatches : Bool) :
    FaqCache :=
  if pathMatches then
    ⟨match fs with | some f => f.mtime | none => 0, load_faq_from_disk fs⟩
  else c

/-!
Encyclopedic Summary Lookup (tra_cuu_wikipedia).  The external wikipedia
service is abstracted as oracles: search returns the candidate titles for
a query, summary returns some text or none when the fetch raises
(disambiguation page, missing page, network error).  A WikiApi value fixes
one language, matching the set_lang call at the top of the function.
-/

/-- External wikipedia service for one fixed language code. -/
structure WikiApi where
  search : String → List String
  summary : String → Option String

/-- Python max(xs, key=key) on the nonempty list x :: xs: the first
element of maximal key (later elements replace the running maximum only
on strictly greater key). -/
def pyMaxByKey (key : String → Rat) (x : String) (xs : List String) : String :=
  xs.foldl (fun b t => if key t > key b then t else b) x

/-- Lower-case a Lean string character-wise (Python str.lower; ASCII
range, see normalizeStr). -/
def strLower (s : String) : List Char := s.data.map Char.toLower

/-- tra_cuu_wikipedia: search for candidate titles; on no result return
the empty string; otherwise take the title of maximal similarity ratio to
the question; if its ratio is below 1/2 return the empty string without
fetching; otherwise fetch the summary, with the empty string on fetch
failure.  The Bool records whether a summary fetch was attempted
(instrumentation for the no-fetch part of the claim). -/
def tra_cuu_wikipedia (api : WikiApi) (cau_hoi : String) : String × Bool :=
  match api.search cau_hoi with
  | [] => ("", false)
  | x :: xs =>
    let key := fun t => ratioOf (strLower cau_hoi) (strLower t)
    let best := pyMaxByKey key x xs
    if key best < mkRat 1 2 then ("", false)
    else ((api.summary best).getD "", true)

/-!
Knowledge Resolver (tra_cuu_kien_thuc).  tra_cuu_wikidata performs network
queries against Wikidata, so it is abstracted as an oracle
wikidata : String -> String in the environment (empty string for "no
result", exactly its interface in the source); the two wikipedia stages
are the embedded tra_cuu_wikipedia with the vi and en service oracles, and
the override-store stage is the embedded load_faq_if_updated over the
file-system model.
-/

/-- External collaborators of the resolver, plus the observable state of
faq.json. -/
structure ResolveEnv where
  wikidata : String → String
  fs : Option FsFile
  wikiVi : WikiApi
  wikiEn : WikiApi

/-- Result of tra_cuu_kien_thuc: the reference text, the cache state
afterwards, and whether the override-store stage was reached
(instrumentation for the never-consulted part of the claims). -/
structure ResolveResult where
  text : String
  cache : FaqCache
  faqConsulted : Bool

/-- tra_cuu_wikipedia_en: tra_cuu_wikipedia with the English service. -/
def tra_cuu_wikipedia_en (env : ResolveEnv) (cau_hoi : String) : String × Bool :=
  tra_cuu_wikipedia env.wikiEn cau_hoi

/-- tra_cuu_kien_thuc: Wikidata first; if its result is truthy (non-empty)
return it at once, never touching the FAQ; else load the FAQ and return
the exact-match entry when present; else Vietnamese wikipedia; else
English wikipedia; else the fixed sentinel string. -/
def tra_cuu_kien_thuc (env : ResolveEnv) (c : FaqCache) (cau_hoi : String) :
    ResolveResult :=
  let kq_wikidata := env.wikidata cau_hoi
  if kq_wikidata ≠ "" then ⟨kq_wikidata, c, false⟩
  else
    let r := load_faq_if_updated env.fs c
    match r.data.lookup cau_hoi with
    | some v => ⟨v, r.cache, true⟩
    | none =>
      let ket_qua := (tra_cuu_wikipedia env.wikiVi cau_hoi).1
      if ket_qua ≠ "" then ⟨ket_qua, r.cache, true⟩
      else
        let ket_qua_en := (tra_cuu_wikipedia_en env cau_hoi).1
        if ket_qua_en ≠ "" then ⟨ket_qua_en, r.cache, true⟩
        else ⟨"Không có dữ liệu tham chiếu phù hợp.", r.cache, true⟩

/-!
Concrete environments used by the witnesses below.
-/

/-- Witness environment: Wikidata answers the capital question, the FAQ
file also contains the same question, the wikipedia services return
nothing. -/
def envHit : ResolveEnv where
  wikidata := fun q =>
    if q == "Thủ đô của Pháp là gì" then "Thủ đô của Pháp là Paris." else ""
  fs := some ⟨5, some [("Thủ đô của Pháp là gì", "Paris")]⟩
  wikiVi := ⟨fun _ => [], fun _ => none⟩
  wikiEn := ⟨fun _ => [], fun _ => none⟩

/-- Witness environment in which every resolver stage comes up empty:
Wikidata knows nothing, faq.json does not exist, both wikipedia searches
return no candidate titles. -/
def envEmpty : ResolveEnv where
  wikidata := fun _ => ""
  fs := none
  wikiVi := ⟨fun _ => [], fun _ => none⟩
  wikiEn := ⟨fun _ => [], fun _ => none⟩

/-- Witness wikipedia service: two candidate titles, both dissimilar to
the question asked in the witness. -/
def apiLow : WikiApi where
  search := fun _ => ["ab", "cd"]
  summary := fun _ => some "summary text"

/-!
Helper lemmas.
-/

/-- The empty string is a Python substring of every string. -/
theorem inStr_nil (ys : List Char) : inStr [] ys = true := by
  induction ys with
  | nil => rfl
  | cons c rest ih => simp [inStr, List.isPrefixOf]

/-- Stripping a string of whitespace characters yields the empty string. -/
theorem pyStrip_all_space (s : List Char) (h : s.all isPySpace = true) :
    pyStrip s = [] := by
  have h1 : s.dropWhile isPySpace = [] := by
    rw [List.dropWhile_eq_nil_iff]
    intro x hx
    exact List.all_eq_true.mp h x hx
  simp [pyStrip, h1]

/-- Python max(x :: xs, key) is x or an element of xs. -/
theorem pyMaxByKey_mem (key : String → Rat) (x : String) (xs : List String) :
    pyMaxByKey key x xs = x ∨ pyMaxByKey key x xs ∈ xs := by
  induction xs generalizing x with
  | nil => left; rfl
  | cons y ys ih =>
    have hstep : pyMaxByKey key x (y :: ys) =
        pyMaxByKey key (if key y > key x then y else x) ys := rfl
    rw [hstep]
    rcases ih (if key y > key x then y else x) with h | h
    · by_cases hc : key y > key x
      · right; rw [h, if_pos hc]; exact List.mem_cons_self y ys
      · left; rw [h, if_neg hc]
    · right; exact List.mem_cons_of_mem y h

/-- Python max(x :: xs, key) has a key at least as large as every
element's. -/
theorem pyMaxByKey_ge (key : String → Rat) (x : String) (xs : List String) :
    ∀ t ∈ x :: xs, key t ≤ key (pyMaxByKey key x xs) := by
  induction xs generalizing x with
  | nil =>
    intro t ht
    rw [List.mem_singleton] at ht
    subst ht
    exact le_refl _
  | cons y ys ih =>
    intro t ht
    have hstep : pyMaxByKey key x (y :: ys) =
        pyMaxByKey key (if key y > key x then y else x) ys := rfl
    rw [hstep]
    have hz := ih (if key y > key x then y else x)
    rcases List.mem_cons.mp ht with h | h
    · rw [h]
      by_cases hc : key y > key x
      · exact le_trans (le_of_lt hc)
          (hz y (by rw [if_pos hc]; exact List.mem_cons_self _ _))
      · exact hz x (by rw [if_neg hc]; exact List.mem_cons_self _ _)
    · rcases List.mem_cons.mp h with h2 | h2
      · rw [h2]
        by_cases hc : key y > key x
        · exact hz y (by rw [if_pos hc]; exact List.mem_cons_self _ _)
        · exact le_trans (not_lt.mp hc)
            (hz x (by rw [if_neg hc]; exact List.mem_cons_self _ _))
      · exact hz t (List.mem_cons_of_mem _ h2)

/-!
Claim theorems.
-/

/-- Claim C5: for every answer with at most 2 whitespace-delimited tokens
after trimming and every reference, if the answer normalized by
lower-casing and removing all non-word characters is a substring of the
reference normalized the same way, then the score is exactly 1. -/
theorem do_ao_giac_short_containment (ans ref : String)
    (h2 : (pySplit (pyStrip ans.data)).length ≤ 2)
    (hc : inStr (normalizeStr (pyStrip ans.data))
      (normalizeStr (pyStrip ref.data)) = true) :
    do_ao_giac ans ref = 1 := by
  simp only [do_ao_giac]
  rw [if_pos h2, if_pos hc]

/-- Witness for C5: score of the answer Paris against the Vietnamese
sentence naming Paris as the capital of France is 1. -/
theorem do_ao_giac_short_containment_witness :
    ((pySplit (pyStrip "Paris".data)).length ≤ 2 ∧
      inStr (normalizeStr (pyStrip "Paris".data))
        (normalizeStr (pyStrip "Thủ đô của Pháp là Paris.".data)) = true) ∧
    do_ao_giac "Paris" "Thủ đô của Pháp là Paris." = 1 :=
  ⟨⟨by decide, by decide⟩,
    do_ao_giac_short_containment "Paris" "Thủ đô của Pháp là Paris."
      (by decide) (by decide)⟩

/-- Claim C6: a short answer (at most 2 tokens) that fails the normalized
containment test scores the case-insensitive similarity ratio of the
trimmed, un-normalized strings when that ratio exceeds 3/5, and exactly 0
otherwise. -/
theorem do_ao_giac_short_threshold (ans ref : String)
    (h2 : (pySplit (pyStrip ans.data)).length ≤ 2)
    (hc : inStr (normalizeStr (pyStrip ans.data))
      (normalizeStr (pyStrip ref.data)) = false) :
    do_ao_giac ans ref =
      (if ratioOf ((pyStrip ans.data).map Char.toLower)
            ((pyStrip ref.data).map Char.toLower) > mkRat 3 5
       then ratioOf ((pyStrip ans.data).map Char.toLower)
            ((pyStrip ref.data).map Char.toLower)
       else 0) := by
  simp only [do_ao_giac]
  rw [if_pos h2, if_neg (by simp [hc])]

set_option maxRecDepth 200000 in
/-- Witness for C6: the answer London against the sentence naming Paris
fails containment, its ratio is below 3/5, and its score is 0. -/
theorem do_ao_giac_short_threshold_witness :
    ((pySplit (pyStrip "London".data)).length ≤ 2 ∧
      inStr (normalizeStr (pyStrip "London".data))
        (normalizeStr (pyStrip "Thủ đô của Pháp là Paris.".data)) = false) ∧
    do_ao_giac "London" "Thủ đô của Pháp là Paris." =
      (if ratioOf ((pyStrip "London".data).map Char.toLower)
            ((pyStrip "Thủ đô của Pháp là Paris.".data).map Char.toLower) >
            mkRat 3 5
       then ratioOf ((pyStrip "London".data).map Char.toLower)
            ((pyStrip "Thủ đô của Pháp là Paris.".data).map Char.toLower)
       else 0) ∧
    do_ao_giac "London" "Thủ đô của Pháp là Paris." = 0 :=
  ⟨⟨by decide, by decide⟩,
    do_ao_giac_short_threshold "London" "Thủ đô của Pháp là Paris."
      (by decide) (by decide),
    by decide⟩

/-- Claim C7: an answer with strictly more than 2 whitespace-delimited
tokens after trimming scores the plain case-insensitive similarity ratio
of the trimmed strings, with no threshold, flooring or containment rule. -/
theorem do_ao_giac_long (ans ref : String)
    (h : 2 < (pySplit (pyStrip ans.data)).length) :
    do_ao_giac ans ref =
      ratioOf ((pyStrip ans.data).map Char.toLower)
        ((pyStrip ref.data).map Char.toLower) := by
  simp only [do_ao_giac]
  rw [if_neg (not_le.mpr h)]

set_option maxRecDepth 400000 in
/-- Witness for C7: the spec's long-answer example scores the plain ratio,
which here is 42/61, strictly between 0 and 1. -/
theorem do_ao_giac_long_witness :
    2 < (pySplit (pyStrip "The capital of France is Paris".data)).length ∧
    do_ao_giac "The capital of France is Paris"
        "Paris is the capital of France." =
      ratioOf ((pyStrip "The capital of France is Paris".data).map Char.toLower)
        ((pyStrip "Paris is the capital of France.".data).map Char.toLower) ∧
    do_ao_giac "The capital of France is Paris"
        "Paris is the capital of France." = mkRat 42 61 :=
  ⟨by decide,
    do_ao_giac_long "The capital of France is Paris"
      "Paris is the capital of France." (by decide),
    by decide⟩

/-- Claim C10: an answer that is empty or consists only of whitespace has
0 tokens after trimming, takes the short-answer branch, and scores 1
against every reference, because the empty normalized answer is a
substring of every normalized reference. -/
theorem do_ao_giac_blank_answer (ans ref : String)
    (h : ans.data.all isPySpace = true) :
    (pySplit (pyStrip ans.data)).length = 0 ∧ do_ao_giac ans ref = 1 := by
  have hs : pyStrip ans.data = [] := pyStrip_all_space _ h
  refine ⟨by rw [hs]; rfl, ?_⟩
  simp only [do_ao_giac]
  rw [hs]
  rw [if_pos (show (pySplit ([] : List Char)).length ≤ 2 by decide),
    if_pos (show inStr (normalizeStr []) (normalizeStr (pyStrip ref.data)) =
      true from inStr_nil _)]

/-- Witness for C10: a whitespace-only answer scores 1 against an
arbitrary reference. -/
theorem do_ao_giac_blank_answer_witness :
    ("  ".data.all isPySpace = true) ∧
    ((pySplit (pyStrip "  ".data)).length = 0 ∧
      do_ao_giac "  " "Paris là thủ đô của Pháp." = 1) :=
  ⟨by decide, do_ao_giac_blank_answer "  " "Paris là thủ đô của Pháp." (by decide)⟩

/-- Claim C1, counterexample: after a valid mapping has been cached, a
malformed write with a changed modification time makes load-if-updated
return a mapping different from the one cached before the write (the
source re-reads and _load_faq_from_disk yields the empty dict, which
replaces the cache). -/
theorem load_faq_malformed_counterexample :
    (load_faq_if_updated (some ⟨2, none⟩)
      ⟨1, [("Thủ đô của Pháp là gì", "Paris")]⟩).data ≠
      [("Thủ đô của Pháp là gì", "Paris")] := by
  decide

/-- Claim C1 as amended: a load-if-updated call that sees malformed
content under a changed modification time returns the empty mapping and
replaces the cache with the empty mapping and the new timestamp; it never
raises (the embedding is a total function). -/
theorem load_faq_malformed_amended (f : FsFile) (c : FaqCache)
    (hm : f.parsed = none) (hne : f.mtime ≠ c.mtime) :
    load_faq_if_updated (some f) c = ⟨[], ⟨f.mtime, []⟩, true⟩ := by
  simp [load_faq_if_updated, load_faq_from_disk, hne, hm]

/-- Witness for the amended C1 at a concrete malformed write over a
non-empty cached mapping. -/
theorem load_faq_malformed_amended_witness :
    ((⟨2, none⟩ : FsFile).parsed = none ∧
      (⟨2, none⟩ : FsFile).mtime ≠
        (⟨1, [("Thủ đô của Pháp là gì", "Paris")]⟩ : FaqCache).mtime) ∧
    load_faq_if_updated (some ⟨2, none⟩)
      ⟨1, [("Thủ đô của Pháp là gì", "Paris")]⟩ = ⟨[], ⟨2, []⟩, true⟩ :=
  ⟨⟨rfl, by decide⟩,
    load_faq_malformed_amended ⟨2, none⟩
      ⟨1, [("Thủ đô của Pháp là gì", "Paris")]⟩ rfl (by decide)⟩

/-- Claim C2: with watchdog available, start_faq_watcher returns right
after constructing the Observer; the handler subscription (schedule) and
observer start are dead code below the first return statement, so the
returned observer is neither scheduled nor started — the claimed
subscribe-and-start behaviour does not happen. -/
theorem start_faq_watcher_unscheduled :
    start_faq_watcher true = some ⟨false, false⟩ := rfl

/-- Claim C8: calling load-if-updated again on the cache state left by a
previous call, with the file unchanged, returns exactly the previously
cached mapping, leaves the cache untouched, and does not re-read or
re-parse the file. -/
theorem load_faq_if_updated_idempotent (f : FsFile) (c : FaqCache) :
    load_faq_if_updated (some f) (load_faq_if_updated (some f) c).cache =
      ⟨(load_faq_if_updated (some f) c).data,
        (load_faq_if_updated (some f) c).cache, false⟩ := by
  by_cases h : f.mtime ≠ c.mtime
  · simp [load_faq_if_updated, h]
  · simp [load_faq_if_updated, h]

/-- Claim C3: the resolver returns the first non-empty stage result in the
fixed order Wikidata, Override Store exact match, Vietnamese wikipedia,
English wikipedia (with the sentinel when all are empty); and when the
Wikidata stage is non-empty the Override Store is never consulted and the
cache is untouched. -/
theorem tra_cuu_kien_thuc_order (env : ResolveEnv) (c : FaqCache) (q : String) :
    ((tra_cuu_kien_thuc env c q).text =
      (if env.wikidata q ≠ "" then env.wikidata q
       else
         match ((load_faq_if_updated env.fs c).data).lookup q with
         | some v => v
         | none =>
           if (tra_cuu_wikipedia env.wikiVi q).1 ≠ "" then
             (tra_cuu_wikipedia env.wikiVi q).1
           else if (tra_cuu_wikipedia env.wikiEn q).1 ≠ "" then
             (tra_cuu_wikipedia env.wikiEn q).1
           else "Không có dữ liệu tham chiếu phù hợp.")) ∧
    (env.wikidata q ≠ "" →
      (tra_cuu_kien_thuc env c q).text = env.wikidata q ∧
      (tra_cuu_kien_thuc env c q).faqConsulted = false ∧
      (tra_cuu_kien_thuc env c q).cache = c) := by
  constructor
  · by_cases hw : env.wikidata q ≠ ""
    · simp [tra_cuu_kien_thuc, hw]
    · simp only [tra_cuu_kien_thuc, tra_cuu_wikipedia_en]
      rw [if_neg hw, if_neg hw]
      cases h : ((load_faq_if_updated env.fs c).data).lookup q with
      | some v => rfl
      | none =>
        by_cases hv : (tra_cuu_wikipedia env.wikiVi q).1 ≠ ""
        · simp [hv]
        · by_cases he : (tra_cuu_wikipedia env.wikiEn q).1 ≠ ""
          · simp [hv, he]
          · simp [hv, he]
  · intro hw
    simp [tra_cuu_kien_thuc, hw]

/-- Witness for C3: in an environment where Wikidata answers and the FAQ
file contains the same question, the resolver returns the Wikidata result
with the Override Store never consulted. -/
theorem tra_cuu_kien_thuc_order_witness :
    envHit.wikidata "Thủ đô của Pháp là gì" ≠ "" ∧
    ((tra_cuu_kien_thuc envHit ⟨0, []⟩ "Thủ đô của Pháp là gì").text =
        envHit.wikidata "Thủ đô của Pháp là gì" ∧
      (tra_cuu_kien_thuc envHit ⟨0, []⟩ "Thủ đô của Pháp là gì").faqConsulted =
        false ∧
      (tra_cuu_kien_thuc envHit ⟨0, []⟩ "Thủ đô của Pháp là gì").cache =
        ⟨0, []⟩) :=
  ⟨by decide,
    (tra_cuu_kien_thuc_order envHit ⟨0, []⟩ "Thủ đô của Pháp là gì").2
      (by decide)⟩

/-- Claim C4: when all four stages return empty, the resolver returns the
fixed sentinel string, which is not the empty string (and the embedding is
a total function, so nothing is raised). -/
theorem tra_cuu_kien_thuc_exhausted (env : ResolveEnv) (c : FaqCache)
    (q : String)
    (hw : env.wikidata q = "")
    (hf : ((load_faq_if_updated env.fs c).data).lookup q = none)
    (hv : (tra_cuu_wikipedia env.wikiVi q).1 = "")
    (he : (tra_cuu_wikipedia env.wikiEn q).1 = "") :
    (tra_cuu_kien_thuc env c q).text =
      "Không có dữ liệu tham chiếu phù hợp." ∧
    (tra_cuu_kien_thuc env c q).text ≠ "" := by
  have h : (tra_cuu_kien_thuc env c q).text =
      "Không có dữ liệu tham chiếu phù hợp." := by
    simp [tra_cuu_kien_thuc, tra_cuu_wikipedia_en, hw, hf, hv, he]
  exact ⟨h, by rw [h]; decide⟩

/-- Witness for C4: with every stage empty the resolver answers the
sentinel. -/
theorem tra_cuu_kien_thuc_exhausted_witness :
    (tra_cuu_kien_thuc envEmpty ⟨0, []⟩ "Câu hỏi lạ").text =
      "Không có dữ liệu tham chiếu phù hợp." ∧
    (tra_cuu_kien_thuc envEmpty ⟨0, []⟩ "Câu hỏi lạ").text ≠ "" :=
  tra_cuu_kien_thuc_exhausted envEmpty ⟨0, []⟩ "Câu hỏi lạ" rfl rfl rfl rfl

/-- Claim C9: on a non-empty search result the encyclopedic lookup selects
the candidate title of maximal similarity ratio to the question (Python
max keeps the first maximal element), and when that best ratio is below
1/2 it returns the empty string without fetching any summary. -/
theorem tra_cuu_wikipedia_best_title (api : WikiApi) (q : String)
    (x : String) (xs : List String) (hs : api.search q = x :: xs) :
    (pyMaxByKey (fun t => ratioOf (strLower q) (strLower t)) x xs = x ∨
      pyMaxByKey (fun t => ratioOf (strLower q) (strLower t)) x xs ∈ xs) ∧
    (∀ t ∈ x :: xs,
      ratioOf (strLower q) (strLower t) ≤
        ratioOf (strLower q)
          (strLower (pyMaxByKey (fun t => ratioOf (strLower q) (strLower t))
            x xs))) ∧
    (ratioOf (strLower q)
        (strLower (pyMaxByKey (fun t => ratioOf (strLower q) (strLower t))
          x xs)) < mkRat 1 2 →
      tra_cuu_wikipedia api q = ("", false)) := by
  refine ⟨pyMaxByKey_mem _ _ _, pyMaxByKey_ge _ _ _, ?_⟩
  intro hlt
  simp only [tra_cuu_wikipedia, hs]
  rw [if_pos hlt]

/-- Witness for C9: two candidate titles both dissimilar to the question;
the lookup returns the empty string with no summary fetched. -/
theorem tra_cuu_wikipedia_best_title_witness :
    apiLow.search "Câu hỏi" = ["ab", "cd"] ∧
    tra_cuu_wikipedia apiLow "Câu hỏi" = ("", false) :=
  ⟨rfl,
    (tra_cuu_wikipedia_best_title apiLow "Câu hỏi" "ab" ["cd"] rfl).2.2
      (by decide)⟩
